import Mathlib

/-!
Verification of the aireo_lib training-dataset library against its design
specification.

The development shallowly embeds the index arithmetic and catalog-handling
logic of the repository:

* `src/aireo_lib/core.py` — the training-dataset facade
  (`EOTrainingDataset.__compute_ds_length`, `__len__`, `__getitem__`,
  `get_example`), embedded over the list of per-AOI example counts;
* `src/aireo_lib/tds_stac_io.py` — relation-string parsing, asset
  cardinality checking, the field-metadata maps, the completeness and
  compliance calculators, and the catalog writer's directory precondition;
* `pilot_datasets_implementation/CAP.py` and `SpaceNet7.py` — the two
  windowed tile indexers (`__len__`, `__getitem__`).

Python `int` arithmetic is modelled with `Int` (`Int.div` for the
truncating `int(a / b)` conversion, `Int.emod` for `%` with a positive
divisor); Python exceptions are modelled with `Except PyError`; Python
dicts keyed by strings are modelled as association lists in insertion
order, or as `Finset String` where only the key set matters.
-/

deriving instance DecidableEq for Except

/-- Python exceptions raised by the embedded code paths. -/
inductive PyError where
  | relationFormatError
  | invalidFieldTypeError
  | assetCardinalityError
  | zeroDivisionError
  | assertionError
  | fileExistsError
  | indexError
  deriving DecidableEq

/-- Helper for `pySplit`: walks the character list, cutting at each
separator; `acc` holds the (reversed) characters of the current chunk. -/
def pySplitAux (sep : Char) : List Char → List Char → List (List Char)
  | [], acc => [acc.reverse]
  | c :: cs, acc =>
    if c = sep then acc.reverse :: pySplitAux sep cs []
    else pySplitAux sep cs (c :: acc)

/-- Embedding of Python `s.split(sep)` for a one-character separator:
all chunks between separator occurrences, empty chunks included. -/
def pySplit (s : String) (sep : Char) : List String :=
  (pySplitAux sep s.toList []).map List.asString

/-- Embedding of Python `s.startswith(pre)`. -/
def pyStartsWith (s pre : String) : Bool :=
  pre.toList.isPrefixOf s.toList

/-- Embedding of the relation-string handling shared by
`DatasetSTACCatalog.__parse_g_profile_info` and
`DatasetSTACCatalog.__parse_aoi_profile_info` for one link:
a link whose `rel` does not start with `metadata` is skipped (`ok none`);
otherwise `_, field_type, field_name = link[rel].split(sep)` raises a
ValueError unless the split has exactly 3 tokens, and a `field_type`
other than `features`/`references` raises before the entry is admitted
(in the source: the `hasattr(FieldSchema, field_type)` guard, or the
failing generated attribute assignment for the remaining class
attributes — fatal either way). -/
def parseMetadataRel (rel : String) : Except PyError (Option (String × String)) :=
  if pyStartsWith rel ("metadata") then
    match pySplit rel '/' with
    | [_, ft, fn] =>
      if ft = ("features") ∨ ft = ("references") then Except.ok (some (ft, fn))
      else Except.error PyError.invalidFieldTypeError
    | _ => Except.error PyError.relationFormatError
  else Except.ok none

example : pySplit ("metadata/features/input1") '/' = [("metadata"), ("features"), ("input1")] := by
  decide

example : parseMetadataRel ("metadata/features/input1") =
    Except.ok (some (("features"), ("input1"))) := by rfl

example : parseMetadataRel ("metadata/input1") = Except.error PyError.relationFormatError := by
  rfl

/-- Per-scope field-metadata store built by the loader loops. `features` and
`references` are the two name-to-profile dicts of `AllFieldMetadata`
(a profile is represented by the `href` of the link it was read from);
`collisionSignals` records every collision report the loop issues to its
caller — no statement in either source loop appends to it. -/
structure AllFieldMetadata where
  features : List (String × String)
  references : List (String × String)
  collisionSignals : List String
  deriving DecidableEq

/-- Embedding of a Python dict assignment `d[k] = v` on an association list
in insertion order: the value of an existing key is replaced in place,
a new key is appended. -/
def dictSet : List (String × String) → String → String → List (String × String)
  | [], k, v => [(k, v)]
  | p :: m, k, v => if p.1 = k then (k, v) :: m else p :: dictSet m k v

/-- Embedding of one iteration of the link loop of
`DatasetSTACCatalog.__parse_g_profile_info`: non-metadata links are
skipped, malformed metadata relations abort the load, and a well-formed
`metadata/<type>/<name>` link stores its profile under `<name>` in the
`<type>` dict (the source performs this store through a generated
`all_field_metadata.<type>["<name>"] = field_profile_info` assignment). -/
def gProfileStep (st : AllFieldMetadata) (link : String × String) :
    Except PyError AllFieldMetadata :=
  match parseMetadataRel link.1 with
  | Except.error e => Except.error e
  | Except.ok none => Except.ok st
  | Except.ok (some (ft, fn)) =>
    if ft = ("features") then
      Except.ok { st with features := dictSet st.features fn link.2 }
    else
      Except.ok { st with references := dictSet st.references fn link.2 }

/-- Embedding of `DatasetSTACCatalog.__parse_g_profile_info`: fold the
link loop over the root document's links, starting from
`AllFieldMetadata(features={}, references={})`; the first exception
aborts the whole load. A link is the pair of its `rel` and `href`. -/
def parse_g_profile_info (links : List (String × String)) :
    Except PyError AllFieldMetadata :=
  links.foldlM gProfileStep { features := [], references := [], collisionSignals := [] }

/-- Embedding of one iteration of the link loop of
`DatasetSTACCatalog.__parse_aoi_profile_info`, whose additional step over
the root-scope loop is the asset check: the profile document's `assets`
dict must have exactly one entry (`if len(profile_metadata_d[assets]) != 1:
raise`), whose key/href pair is then carried into the `FieldProfileInfo`.
The result is `none` for a skipped link, otherwise field type, field name,
asset name and asset href. -/
def parseAoiProfileLink (rel : String) (assets : List (String × String)) :
    Except PyError (Option (String × String × String × String)) :=
  match parseMetadataRel rel with
  | Except.error e => Except.error e
  | Except.ok none => Except.ok none
  | Except.ok (some (ft, fn)) =>
    match assets with
    | [a] => Except.ok (some (ft, fn, a.1, a.2))
    | _ => Except.error PyError.assetCardinalityError

/-- Embedding of one iteration of the link loop of
`DatasetSTACCatalog.__parse_aoi_profile_info` as a store update: the
link is its `(rel, href, assets)` triple; a skipped link leaves the
store alone, a failure aborts, and an admitted profile is stored under
its field name in the dict selected by its field type (the source
performs this store through the same generated
`all_field_metadata.<type>["<name>"] = field_profile_info`
assignment as the root-scope loop). -/
def aoiProfileStep (st : AllFieldMetadata)
    (link : String × String × List (String × String)) :
    Except PyError AllFieldMetadata :=
  match parseAoiProfileLink link.1 link.2.2 with
  | Except.error e => Except.error e
  | Except.ok none => Except.ok st
  | Except.ok (some (ft, fn, _, _)) =>
    if ft = ("features") then
      Except.ok { st with features := dictSet st.features fn link.2.1 }
    else
      Except.ok { st with references := dictSet st.references fn link.2.1 }

/-- Embedding of `DatasetSTACCatalog.__parse_aoi_profile_info`: fold the
link loop over one AOI collection's links, starting from
`AllFieldMetadata(features={}, references={})`; the first exception
aborts the whole load. -/
def parse_aoi_profile_info (links : List (String × String × List (String × String))) :
    Except PyError AllFieldMetadata :=
  links.foldlM aoiProfileStep { features := [], references := [], collisionSignals := [] }

/-- The dict of a store selected by a field type, i.e. the target of
the generated `all_field_metadata.<field_type>` attribute access. -/
def fieldDict (st : AllFieldMetadata) (ft : String) : List (String × String) :=
  if ft = ("features") then st.features else st.references

/-- The requirement table entry for one document kind (`tds_stac_io.py`,
`MetadataRequirementInfo`): the three tiers of metadata names, loaded
once from the external requirement configuration. -/
structure MetadataRequirementInfo where
  required_metadata_set : Finset String
  recommended_metadata_set : Finset String
  optional_metadata_set : Finset String

/-- Embedding of Python integer `a / b` division as used by
`report_metadata_completeness`: raises ZeroDivisionError when `b = 0`,
otherwise produces the exact quotient (the lengths involved are far
inside the exact float range). -/
def pyDiv (a b : ℕ) : Except PyError ℚ :=
  if b = 0 then Except.error PyError.zeroDivisionError
  else Except.ok ((a : ℚ) / (b : ℚ))

/-- Embedding of `DatasetSTACCatalog.report_metadata_completeness`:
after `assert self.valid_tds`, each tier fraction is
`len(available ∩ tier) / len(tier)` computed in order
required, recommended, optional. `root_metadata_keys` is
`set(root_metadata_d.keys())` and `req` the requirement entry looked up
for the document kind (`aireo_tds_core`). -/
def report_metadata_completeness (valid_tds : Bool) (root_metadata_keys : Finset String)
    (req : MetadataRequirementInfo) : Except PyError (ℚ × ℚ × ℚ) :=
  if valid_tds = false then Except.error PyError.assertionError
  else
    match pyDiv (root_metadata_keys ∩ req.required_metadata_set).card
        req.required_metadata_set.card with
    | Except.error e => Except.error e
    | Except.ok pct_required =>
      match pyDiv (root_metadata_keys ∩ req.recommended_metadata_set).card
          req.recommended_metadata_set.card with
      | Except.error e => Except.error e
      | Except.ok pct_recommended =>
        match pyDiv (root_metadata_keys ∩ req.optional_metadata_set).card
            req.optional_metadata_set.card with
        | Except.error e => Except.error e
        | Except.ok pct_optional =>
          Except.ok (pct_required, pct_recommended, pct_optional)

/-- Embedding of `DatasetSTACCatalog.compute_compliance_level`: after
`assert self.valid_tds`, the level starts at 1, becomes 2 when the
available keys cover the whole recommended tier, and becomes 3 when it
is 2 and they also cover the whole optional tier (coverage is compared
by cardinality of the intersection, as in the source). -/
def compute_compliance_level (valid_tds : Bool) (root_metadata_keys : Finset String)
    (req : MetadataRequirementInfo) : Except PyError ℕ :=
  if valid_tds = false then Except.error PyError.assertionError
  else
    let level_after_recommended :=
      if (root_metadata_keys ∩ req.recommended_metadata_set).card =
          req.recommended_metadata_set.card then 2 else 1
    let level_after_optional :=
      if level_after_recommended = 2 ∧
          (root_metadata_keys ∩ req.optional_metadata_set).card =
            req.optional_metadata_set.card then 3 else level_after_recommended
    Except.ok level_after_optional

/-- A directory tree, as far as the catalog writer observes it: the set of
existing directories and the files present (path and content). -/
structure FileSystem where
  dirs : List String
  files : List (String × String)
  deriving DecidableEq

/-- Embedding of `DatasetSTACCatalog.write_TDS_STAC_Catalog`: after
`assert self.valid_tds`, the destination root folder is created with
`tds_catalog_root_folder.mkdir(parents=True)` — with no `exist_ok`, so an
already existing destination raises FileExistsError before anything is
written. Only then are the datasheet, the profile documents, the AOI
subtrees and the copied assets produced; `outputs` abstracts that list
of written files (their generation involves no further failure relevant
here). -/
def write_TDS_STAC_Catalog (fs : FileSystem) (valid_tds : Bool) (root_folder : String)
    (outputs : List (String × String)) : Except PyError FileSystem :=
  if valid_tds = false then Except.error PyError.assertionError
  else if fs.dirs.contains root_folder then Except.error PyError.fileExistsError
  else Except.ok { dirs := fs.dirs ++ [root_folder], files := fs.files ++ outputs }

/-- Embedding of Python `int(a / b)` on integer operands: float division
followed by truncation toward zero, i.e. `Int.tdiv` (exact for the small
raster dimensions involved). -/
def pyIntDiv (a b : ℤ) : ℤ := Int.tdiv a b

/-- Embedding of Python `a % b` for the positive divisors used by the
indexers: the remainder in `[0, b)`, i.e. `Int.emod`. -/
def pyMod (a b : ℤ) : ℤ := Int.emod a b

/-- The exclusive windowing policy: `axisWindows = floor((extent - S) / St)`
(the CAP variant, `int((shape - window_size) / stride)`). -/
def axis_windows_exclusive (extent window_size stride : ℤ) : ℤ :=
  pyIntDiv (extent - window_size) stride

/-- The inclusive windowing policy:
`axisWindows = floor((extent - S) / St) + 1` (the SpaceNet variant,
`int((shape - window_size) / stride) + 1`). -/
def axis_windows_inclusive (extent window_size stride : ℤ) : ℤ :=
  pyIntDiv (extent - window_size) stride + 1

/-- Embedding of `AOIDatasetCAP.__len__`: `along_x` and `along_y` are the
exclusive axis window counts taken from `feature_data.shape[1]` and
`feature_data.shape[-1]`, and the count is their product (no time axis). -/
def cap_len (shape_1 shape_last window_size stride : ℤ) : ℤ :=
  axis_windows_exclusive shape_1 window_size stride *
    axis_windows_exclusive shape_last window_size stride

/-- Embedding of `AOIDatasetCAP.__getitem__`: the returned pixel window
`(x1, y1, x2, y2)` for a local example index. Note the source divides by
`along_y` where it takes the remainder by `along_x`:
`x1 = stride * int(index % along_x)` but
`y1 = stride * int(index / along_y)`. -/
def cap_getitem (shape_1 shape_last window_size stride index : ℤ) : ℤ × ℤ × ℤ × ℤ :=
  let along_x := axis_windows_exclusive shape_1 window_size stride
  let along_y := axis_windows_exclusive shape_last window_size stride
  let x1 := stride * pyMod index along_x
  let y1 := stride * pyIntDiv index along_y
  (x1, y1, x1 + window_size, y1 + window_size)

/-- Embedding of the `single_image_examples` quantity of
`AOIDatasetSpaceNet`: the product of the two inclusive axis window
counts, i.e. the per-timestep example count. -/
def spacenet_single_image_examples (shape_1 shape_2 window_size stride : ℤ) : ℤ :=
  axis_windows_inclusive shape_1 window_size stride *
    axis_windows_inclusive shape_2 window_size stride

/-- Embedding of `AOIDatasetSpaceNet.__len__`. The method first
evaluates `sample_image = self.feature_data[0]`, which indexes the
`date` axis and raises IndexError when that axis is empty
(`n_timesteps = 0`); only past that does it compute the inclusive axis
window counts from the sample image's spatial shape and return
`len(self.timesteps) * single_image_examples`. -/
def spacenet_len (shape_1 shape_2 window_size stride : ℤ) (n_timesteps : ℕ) :
    Except PyError ℤ :=
  if n_timesteps = 0 then Except.error PyError.indexError
  else
    Except.ok ((n_timesteps : ℤ) *
      spacenet_single_image_examples shape_1 shape_2 window_size stride)

/-- Embedding of `AOIDatasetSpaceNet.__getitem__`: the guard
`if index >= len(self): sys.exit(...)` first evaluates `len(self)`
(whose own failure at an empty date axis propagates); past the guard
the local index is split into a timestep and an in-image residual, and
the residual into a window row and column, both against `x1_ceiling`;
the result is `(timestep, x1, y1, x2, y2)`. -/
def spacenet_getitem (shape_1 shape_2 window_size stride : ℤ) (n_timesteps : ℕ)
    (index : ℤ) : Except PyError (ℤ × ℤ × ℤ × ℤ × ℤ) :=
  match spacenet_len shape_1 shape_2 window_size stride n_timesteps with
  | Except.error e => Except.error e
  | Except.ok total =>
    if total ≤ index then Except.error PyError.indexError
    else
      let x1_ceiling := axis_windows_inclusive shape_1 window_size stride
      let y1_ceiling := axis_windows_inclusive shape_2 window_size stride
      let single_image_examples := x1_ceiling * y1_ceiling
      let timestep := pyIntDiv index single_image_examples
      let image_index := index - timestep * single_image_examples
      let x1 := stride * pyMod image_index x1_ceiling
      let y1 := stride * pyIntDiv image_index x1_ceiling
      Except.ok (timestep, x1, y1, x1 + window_size, y1 + window_size)

/-- The window mapping exactly as the specification words it (§4.4 of the
spec, quoted by the claim): `timestep = floor(i / perTimestepCount)`,
`residual = i - timestep * perTimestepCount`,
`row = floor(residual / axisWindowsX)`, `col = residual mod axisWindowsX`,
`x1 = St * col`, `y1 = St * row`, `x2 = x1 + S`, `y2 = y1 + S`;
the result is `(timestep, x1, y1, x2, y2)`. Kept separate from the
embedded code so the two can be compared. -/
def specWindowedTileIndex (axisWindowsX perTimestepCount window_size stride i : ℤ) :
    ℤ × ℤ × ℤ × ℤ × ℤ :=
  let timestep := Int.fdiv i perTimestepCount
  let residual := i - timestep * perTimestepCount
  let row := Int.fdiv residual axisWindowsX
  let col := Int.emod residual axisWindowsX
  let x1 := stride * col
  let y1 := stride * row
  (timestep, x1, y1, x1 + window_size, y1 + window_size)

/-- Embedding of the accumulation loop of
`EOTrainingDataset.__compute_ds_length` (`n_exs += aoi_ds.get_length()`
over the AOI dataset list): the returned total example count. The
facade's `__len__` returns this stored value. -/
def compute_ds_length (aoi_lengths : List ℕ) : ℕ :=
  aoi_lengths.foldl (· + ·) 0

/-- Embedding of the `aoi_2_tds_start_idx` offset table of
`EOTrainingDataset.__compute_ds_length`: entry `k` is the first global
example index allocated to AOI `k`, i.e. the sum of the example counts
of the preceding AOIs. -/
def aoi_2_tds_start_idx (aoi_lengths : List ℕ) (k : ℕ) : ℕ :=
  (aoi_lengths.take k).sum

/-- Embedding of the `tds_ex_idx_2_aoi_ex_idx` array filled by the nested
loop of `EOTrainingDataset.__compute_ds_length`: for each AOI `k` the
loop writes `(k, tds_ex_idx - aoi_2_tds_start_idx k)` at every global
index of AOI `k`'s block `[start k, start (k+1))`, so the array is the
concatenation over `k` of the blocks `(k, 0), …, (k, c_k - 1)`. -/
def tds_ex_idx_2_aoi_ex_idx : List ℕ → List (ℕ × ℕ)
  | [] => []
  | c :: cs =>
    ((List.range c).map fun j => (0, j)) ++
      (tds_ex_idx_2_aoi_ex_idx cs).map fun p => (p.1 + 1, p.2)

/-- Embedding of numpy 1-d integer indexing `arr[j]` as used by
`EOTrainingDataset.__getitem__`: a negative index wraps around to
`len(arr) + j`, and any index outside `[-len(arr), len(arr))` raises
IndexError (`none`). -/
def npGetitem {α : Type} (xs : List α) (j : ℤ) : Option α :=
  if j < 0 then
    if -(xs.length : ℤ) ≤ j then xs[(j + (xs.length : ℤ)).toNat]? else none
  else if j < (xs.length : ℤ) then xs[j.toNat]? else none

/-- Embedding of the index-map lookup
`self.tds_ex_idx_2_aoi_ex_idx[ex_index]` performed by
`EOTrainingDataset.__getitem__`. -/
def tds_getitem (aoi_lengths : List ℕ) (j : ℤ) : Option (ℕ × ℕ) :=
  npGetitem (tds_ex_idx_2_aoi_ex_idx aoi_lengths) j

/-- Embedding of `EOTrainingDataset.__getitem__`, which resolves the
global index through the map and delegates to
`self.aoi_ds_l[aoi_idx][aoi_ex_idx]`; `aoiGet k j` stands for AOI
dataset `k`'s local example `j`. `EOTrainingDataset.get_example` calls
`self.__getitem__(index)` directly, so it is the same function. -/
def tds_get_example {α : Type} (aoi_lengths : List ℕ) (aoiGet : ℕ → ℕ → α) (j : ℤ) :
    Option α :=
  (tds_getitem aoi_lengths j).map fun p => aoiGet p.1 p.2

theorem foldl_add_eq_sum (l : List ℕ) : ∀ a : ℕ, l.foldl (· + ·) a = a + l.sum := by
  induction l with
  | nil => intro a; simp
  | cons c cs ih => intro a; rw [List.foldl_cons, ih, List.sum_cons]; omega

theorem compute_ds_length_eq_sum (l : List ℕ) : compute_ds_length l = l.sum := by
  rw [compute_ds_length, foldl_add_eq_sum]; omega

theorem start_idx_zero (cs : List ℕ) : aoi_2_tds_start_idx cs 0 = 0 := rfl

theorem start_idx_cons_succ (c : ℕ) (cs : List ℕ) (k : ℕ) :
    aoi_2_tds_start_idx (c :: cs) (k + 1) = c + aoi_2_tds_start_idx cs k := by
  simp [aoi_2_tds_start_idx]

theorem start_idx_succ (cs : List ℕ) (k : ℕ) (h : k < cs.length) :
    aoi_2_tds_start_idx cs (k + 1) = aoi_2_tds_start_idx cs k + cs.getD k 0 := by
  unfold aoi_2_tds_start_idx
  rw [List.take_succ, List.sum_append]
  congr 1
  rw [List.getElem?_eq_getElem h]
  simp [List.getD_eq_getElem?_getD, List.getElem?_eq_getElem h]

theorem start_idx_le_succ (cs : List ℕ) (k : ℕ) :
    aoi_2_tds_start_idx cs k ≤ aoi_2_tds_start_idx cs (k + 1) := by
  unfold aoi_2_tds_start_idx
  rw [List.take_succ, List.sum_append]
  omega

theorem start_idx_mono (cs : List ℕ) {k k' : ℕ} (h : k ≤ k') :
    aoi_2_tds_start_idx cs k ≤ aoi_2_tds_start_idx cs k' := by
  induction h with
  | refl => exact le_rfl
  | step _ ih => exact le_trans ih (start_idx_le_succ _ _)

theorem start_idx_unique (cs : List ℕ) {i k k' : ℕ}
    (h1 : aoi_2_tds_start_idx cs k ≤ i) (h2 : i < aoi_2_tds_start_idx cs (k + 1))
    (h1' : aoi_2_tds_start_idx cs k' ≤ i) (h2' : i < aoi_2_tds_start_idx cs (k' + 1)) :
    k = k' := by
  rcases Nat.lt_trichotomy k k' with hlt | heq | hgt
  · have := start_idx_mono cs (show k + 1 ≤ k' by omega); omega
  · exact heq
  · have := start_idx_mono cs (show k' + 1 ≤ k by omega); omega

theorem tds_map_length (cs : List ℕ) :
    (tds_ex_idx_2_aoi_ex_idx cs).length = cs.sum := by
  induction cs with
  | nil => rfl
  | cons c cs ih => simp [tds_ex_idx_2_aoi_ex_idx, ih]

theorem tds_map_getElem (cs : List ℕ) (i : ℕ) (h : i < cs.sum) :
    ∃ k, aoi_2_tds_start_idx cs k ≤ i ∧ i < aoi_2_tds_start_idx cs (k + 1) ∧
      (tds_ex_idx_2_aoi_ex_idx cs)[i]? = some (k, i - aoi_2_tds_start_idx cs k) := by
  induction cs generalizing i with
  | nil => simp at h
  | cons c cs ih =>
    rw [List.sum_cons] at h
    by_cases hic : i < c
    · refine ⟨0, Nat.zero_le i, ?_, ?_⟩
      · rw [start_idx_cons_succ, start_idx_zero]; omega
      · rw [tds_ex_idx_2_aoi_ex_idx,
          List.getElem?_append_left (by simpa using hic),
          List.getElem?_map, List.getElem?_range hic]
        simp [start_idx_zero]
    · push_neg at hic
      have h' : i - c < cs.sum := by omega
      obtain ⟨k, hk1, hk2, hk3⟩ := ih (i - c) h'
      refine ⟨k + 1, ?_, ?_, ?_⟩
      · rw [start_idx_cons_succ]; omega
      · rw [start_idx_cons_succ]; omega
      · rw [tds_ex_idx_2_aoi_ex_idx,
          List.getElem?_append_right (by simpa using hic),
          List.getElem?_map]
        simp only [List.length_map, List.length_range]
        rw [hk3, start_idx_cons_succ]
        simp only [Option.map_some']
        congr 2
        omega

theorem npGetitem_natCast {α : Type} (xs : List α) (i : ℕ) :
    npGetitem xs (i : ℤ) = xs[i]? := by
  unfold npGetitem
  rw [if_neg (by omega)]
  by_cases h : i < xs.length
  · rw [if_pos (by exact_mod_cast h)]
    norm_num
  · rw [if_neg (by omega)]
    exact (List.getElem?_eq_none_iff.2 (by omega)).symm

/-- C1: for a training dataset over AOI datasets with local example counts
`aoi_lengths`, the facade length equals the sum of the counts; the
offset table satisfies `offset 0 = 0` and `offset (k+1) = offset k + c_k`;
and every global index `i < total` is resolved by the construction-time
map to `(k, i - offset k)` for the unique `k` with
`offset k ≤ i < offset (k+1)`, to which `__getitem__`/`get_example`
then delegate. -/
theorem claim_C1_index_map {α : Type} (aoi_lengths : List ℕ) (aoiGet : ℕ → ℕ → α)
    (i : ℕ) (h : i < compute_ds_length aoi_lengths) :
    compute_ds_length aoi_lengths = aoi_lengths.sum ∧
    aoi_2_tds_start_idx aoi_lengths 0 = 0 ∧
    (∀ k, k < aoi_lengths.length →
      aoi_2_tds_start_idx aoi_lengths (k + 1) =
        aoi_2_tds_start_idx aoi_lengths k + aoi_lengths.getD k 0) ∧
    ∃ k, aoi_2_tds_start_idx aoi_lengths k ≤ i ∧
      i < aoi_2_tds_start_idx aoi_lengths (k + 1) ∧
      (∀ k', aoi_2_tds_start_idx aoi_lengths k' ≤ i →
        i < aoi_2_tds_start_idx aoi_lengths (k' + 1) → k' = k) ∧
      (tds_ex_idx_2_aoi_ex_idx aoi_lengths)[i]? =
        some (k, i - aoi_2_tds_start_idx aoi_lengths k) ∧
      tds_get_example aoi_lengths aoiGet (i : ℤ) =
        some (aoiGet k (i - aoi_2_tds_start_idx aoi_lengths k)) := by
  rw [compute_ds_length_eq_sum] at h
  obtain ⟨k, hk1, hk2, hk3⟩ := tds_map_getElem aoi_lengths i h
  refine ⟨compute_ds_length_eq_sum aoi_lengths, start_idx_zero aoi_lengths,
    fun k hk => start_idx_succ aoi_lengths k hk, k, hk1, hk2, ?_, hk3, ?_⟩
  · exact fun k' h1' h2' => start_idx_unique aoi_lengths h1' h2' hk1 hk2
  · rw [tds_get_example, tds_getitem, npGetitem_natCast, hk3]
    rfl

/-- Witness for C1: two AOIs with counts 3 and 5; global index 4 resolves
to AOI 1, local index 1, and the facade delegates there. -/
theorem claim_C1_index_map_witness :
    (tds_ex_idx_2_aoi_ex_idx [3, 5])[4]? = some (1, 1) ∧
    tds_get_example [3, 5] (fun k j => (k, j)) (4 : ℤ) = some (1, 1) := by
  obtain ⟨-, -, -, k, hk1, hk2, huniq, hget, hdeleg⟩ :=
    claim_C1_index_map [3, 5] (fun k j => (k, j)) 4 (by decide)
  have hk : (1 : ℕ) = k := huniq 1 (by decide) (by decide)
  subst hk
  have hs : aoi_2_tds_start_idx [3, 5] 1 = 3 := by decide
  rw [hs] at hget hdeleg
  exact ⟨hget, hdeleg⟩

/-- C10: with `n = Σcᵢ ≥ 1` total examples, a negative index
`-n ≤ j < 0` passed to `__getitem__`/`get_example` wraps around to the
example at global index `n + j` (numpy indexing into the construction
map), and an IndexError occurs exactly for `j ≥ n` or `j < -n`. -/
theorem claim_C10_negative_indexing {α : Type} (aoi_lengths : List ℕ)
    (aoiGet : ℕ → ℕ → α) (j : ℤ) (hn : 1 ≤ aoi_lengths.sum) :
    ((-(aoi_lengths.sum : ℤ) ≤ j ∧ j < 0) →
      tds_getitem aoi_lengths j =
        tds_getitem aoi_lengths ((aoi_lengths.sum : ℤ) + j) ∧
      tds_get_example aoi_lengths aoiGet j =
        tds_get_example aoi_lengths aoiGet ((aoi_lengths.sum : ℤ) + j) ∧
      (tds_getitem aoi_lengths j).isSome = true) ∧
    (tds_getitem aoi_lengths j = none ↔
      ((aoi_lengths.sum : ℤ) ≤ j ∨ j < -(aoi_lengths.sum : ℤ))) := by
  have hlen : (tds_ex_idx_2_aoi_ex_idx aoi_lengths).length = aoi_lengths.sum :=
    tds_map_length aoi_lengths
  constructor
  · rintro ⟨hj1, hj2⟩
    have hEq : tds_getitem aoi_lengths j =
        tds_getitem aoi_lengths ((aoi_lengths.sum : ℤ) + j) := by
      rw [tds_getitem, tds_getitem, npGetitem, npGetitem,
        if_pos hj2,
        if_pos (show -(((tds_ex_idx_2_aoi_ex_idx aoi_lengths).length : ℤ)) ≤ j by omega),
        if_neg (show ¬((aoi_lengths.sum : ℤ) + j < 0) by omega),
        if_pos (show (aoi_lengths.sum : ℤ) + j <
          ((tds_ex_idx_2_aoi_ex_idx aoi_lengths).length : ℤ) by omega)]
      congr 1
      omega
    refine ⟨hEq, by rw [tds_get_example, tds_get_example, hEq], ?_⟩
    rw [tds_getitem, npGetitem, if_pos hj2,
      if_pos (show -(((tds_ex_idx_2_aoi_ex_idx aoi_lengths).length : ℤ)) ≤ j by omega)]
    have hb : (j + ((tds_ex_idx_2_aoi_ex_idx aoi_lengths).length : ℤ)).toNat <
        (tds_ex_idx_2_aoi_ex_idx aoi_lengths).length := by omega
    rw [List.getElem?_eq_getElem hb]
    rfl
  · constructor
    · intro hnone
      by_contra hcon
      push_neg at hcon
      obtain ⟨hlt, hge⟩ := hcon
      rcases lt_or_ge j 0 with hneg | hpos
      · rw [tds_getitem, npGetitem, if_pos hneg, if_pos (by omega)] at hnone
        have hb : (j + ((tds_ex_idx_2_aoi_ex_idx aoi_lengths).length : ℤ)).toNat <
            (tds_ex_idx_2_aoi_ex_idx aoi_lengths).length := by omega
        rw [List.getElem?_eq_getElem hb] at hnone
        simp at hnone
      · rw [tds_getitem, npGetitem, if_neg (by omega), if_pos (by omega)] at hnone
        have hb : j.toNat < (tds_ex_idx_2_aoi_ex_idx aoi_lengths).length := by omega
        rw [List.getElem?_eq_getElem hb] at hnone
        simp at hnone
    · intro hout
      rcases hout with hge | hlt
      · rw [tds_getitem, npGetitem, if_neg (by omega), if_neg (by omega)]
      · rw [tds_getitem, npGetitem, if_pos (by omega), if_neg (by omega)]

/-- Witness for C10: with counts 3 and 5 (8 examples), index -1 resolves
like index 7 — to AOI 1, local index 4 — and index 8 is out of range. -/
theorem claim_C10_negative_indexing_witness :
    tds_getitem [3, 5] (-1) = tds_getitem [3, 5] ((([3, 5] : List ℕ).sum : ℤ) + (-1)) ∧
    (tds_getitem [3, 5] (-1)).isSome = true ∧
    (tds_getitem [3, 5] 8 = none ↔
      ((([3, 5] : List ℕ).sum : ℤ) ≤ 8 ∨ (8 : ℤ) < -(([3, 5] : List ℕ).sum : ℤ))) := by
  obtain ⟨hwrap, -, hsome⟩ :=
    (claim_C10_negative_indexing [3, 5] (fun k j => (k, j)) (-1) (by decide)).1
      (by constructor <;> norm_num)
  exact ⟨hwrap, hsome,
    (claim_C10_negative_indexing [3, 5] (fun k j => (k, j)) 8 (by decide)).2⟩

/-- C2: for extent (356, 356), S = 256, St = 26 the exclusive policy
gives 3 windows per axis (CAP count 9 — the no-time-axis case, where
the claimed factor `max(T, 1)` is 1) and the inclusive policy gives 4
per axis (SpaceNet per-timestep count 16); for every time length
`T ≥ 1` the SpaceNet total is `perTimestepCount * T =
perTimestepCount * max(T, 1)`, and every total the code returns obeys
that formula — at `T = 0` no total is returned at all, because
`__len__` raises IndexError from `self.feature_data[0]` before its
return statement. -/
theorem claim_C2_window_counts :
    axis_windows_exclusive 356 256 26 = 3 ∧
    axis_windows_inclusive 356 256 26 = 4 ∧
    cap_len 356 356 256 26 = 9 ∧
    spacenet_single_image_examples 356 356 256 26 = 16 ∧
    (∀ n_timesteps : ℕ, 1 ≤ n_timesteps →
      spacenet_len 356 356 256 26 n_timesteps =
        Except.ok (spacenet_single_image_examples 356 356 256 26 *
          max (n_timesteps : ℤ) 1)) ∧
    (∀ (n_timesteps : ℕ) (total : ℤ),
      spacenet_len 356 356 256 26 n_timesteps = Except.ok total →
      total = spacenet_single_image_examples 356 356 256 26 *
        max (n_timesteps : ℤ) 1) ∧
    spacenet_len 356 356 256 26 0 = Except.error PyError.indexError := by
  have hsingle : spacenet_single_image_examples 356 356 256 26 = 16 := by decide
  have hok : ∀ n_timesteps : ℕ, 1 ≤ n_timesteps →
      spacenet_len 356 356 256 26 n_timesteps =
        Except.ok (spacenet_single_image_examples 356 356 256 26 *
          max (n_timesteps : ℤ) 1) := by
    intro T hT
    rw [spacenet_len, if_neg (by omega)]
    have hmax : max (T : ℤ) 1 = (T : ℤ) := max_eq_left (by exact_mod_cast hT)
    rw [hmax, mul_comm]
  refine ⟨by decide, by decide, by decide, hsingle, hok, ?_, by rfl⟩
  intro T total h
  rcases Nat.eq_zero_or_pos T with hT | hT
  · subst hT
    exact absurd h (by rw [spacenet_len]; simp)
  · rw [hok T hT] at h
    exact (Except.ok.injEq _ _ ▸ h).symm

/-- Witness for C2: at time length 2 the SpaceNet total is returned and
equals `16 * max(2, 1) = 32`. -/
theorem claim_C2_window_counts_witness :
    spacenet_len 356 356 256 26 2 =
      Except.ok (spacenet_single_image_examples 356 356 256 26 * max ((2 : ℕ) : ℤ) 1) :=
  claim_C2_window_counts.2.2.2.2.1 2 (by norm_num)

/-- C3 (code bug in `AOIDatasetCAP.__getitem__`): the CAP indexer divides
by `along_y` where the claimed formula (and the sibling SpaceNet
indexer) divides by `axisWindowsX`. For a non-square raster with
extents 356 and 282, S = 256, St = 26 (so `along_x = 3`, `along_y = 1`,
total `= 3`), the valid local index 2 gets the window
`(x1, y1, x2, y2) = (52, 52, 308, 308)` from the code — whose y range
`[52, 308)` leaves the 282-pixel axis — while the claimed mapping
(`axisWindowsX = 3`, `perTimestepCount = 3`) gives `y1 = 0`,
`(52, 0, 308, 256)`. -/
theorem claim_C3_cap_divergence :
    cap_getitem 356 282 256 26 2 = (52, 52, 308, 308) ∧
    specWindowedTileIndex 3 3 256 26 2 = (0, 52, 0, 308, 256) ∧
    (cap_getitem 356 282 256 26 2).2.1 ≠ (specWindowedTileIndex 3 3 256 26 2).2.2.1 ∧
    (282 : ℤ) < (cap_getitem 356 282 256 26 2).2.2.2 := by
  refine ⟨by decide, by decide, by decide, by decide⟩

/-- The SpaceNet indexer does follow the claimed window mapping: on the
(356, 356), S = 256, St = 26 raster with one timestep, every one of the
16 valid local indices is mapped exactly as the specification's formula
states (with the inclusive `axisWindowsX = 4` and
`perTimestepCount = 16`). -/
theorem spacenet_getitem_matches_spec_356 :
    ∀ i : ℕ, i < 16 →
      spacenet_getitem 356 356 256 26 1 (i : ℤ) =
        Except.ok (specWindowedTileIndex 4 16 256 26 (i : ℤ)) := by
  intro i hi
  interval_cases i <;> decide

/-- Counterexample to C4: with the validated flag set and an empty
requirement tier, `report_metadata_completeness` divides by the tier
size with no guard, so it raises ZeroDivisionError instead of returning
the fraction 1.0 — here with every tier empty, so the claimed result
would be `(1, 1, 1)`. -/
theorem claim_C4_counterexample :
    report_metadata_completeness true ∅
        { required_metadata_set := ∅, recommended_metadata_set := ∅,
          optional_metadata_set := ∅ } =
      Except.error PyError.zeroDivisionError ∧
    (Except.error PyError.zeroDivisionError : Except PyError (ℚ × ℚ × ℚ)) ≠
      Except.ok (1, 1, 1) := by
  constructor
  · rfl
  · intro h
    exact Except.noConfusion h

/-- C4 (amended): for a validated catalog and nonempty tiers, the
completeness report returns `|present ∩ tier| / |tier|` for each of
required, recommended, optional; a tier of size 0 instead makes the
call fail with ZeroDivisionError (see the counterexample). -/
theorem claim_C4_completeness (valid_tds : Bool) (root_metadata_keys : Finset String)
    (req : MetadataRequirementInfo)
    (hv : valid_tds = true)
    (h1 : req.required_metadata_set.card ≠ 0)
    (h2 : req.recommended_metadata_set.card ≠ 0)
    (h3 : req.optional_metadata_set.card ≠ 0) :
    report_metadata_completeness valid_tds root_metadata_keys req =
      Except.ok
        (((root_metadata_keys ∩ req.required_metadata_set).card : ℚ) /
            (req.required_metadata_set.card : ℚ),
          ((root_metadata_keys ∩ req.recommended_metadata_set).card : ℚ) /
            (req.recommended_metadata_set.card : ℚ),
          ((root_metadata_keys ∩ req.optional_metadata_set).card : ℚ) /
            (req.optional_metadata_set.card : ℚ)) := by
  subst hv
  rw [report_metadata_completeness, if_neg (by simp)]
  rw [pyDiv, if_neg h1, pyDiv, if_neg h2, pyDiv, if_neg h3]

/-- Witness for C4 (amended), the worked example of the claim:
required = {a, b}, recommended = {c}, optional = {d}, document keys
= {a, c} give fractions (0.5, 1.0, 0.0). -/
theorem claim_C4_completeness_witness :
    report_metadata_completeness true {"a", "c"}
        { required_metadata_set := {"a", "b"}, recommended_metadata_set := {"c"},
          optional_metadata_set := {"d"} } =
      Except.ok ((1 : ℚ) / 2, 1, 0) := by
  rw [claim_C4_completeness true _ _ rfl (by decide) (by decide) (by decide)]
  have e1 : (({"a", "c"} : Finset String) ∩ ({"a", "b"} : Finset String)).card = 1 := by
    decide
  have e2 : (({"a", "c"} : Finset String) ∩ ({"c"} : Finset String)).card = 1 := by decide
  have e3 : (({"a", "c"} : Finset String) ∩ ({"d"} : Finset String)).card = 0 := by decide
  have e4 : ({"a", "b"} : Finset String).card = 2 := by decide
  have e5 : ({"c"} : Finset String).card = 1 := by decide
  have e6 : ({"d"} : Finset String).card = 1 := by decide
  rw [e1, e2, e3, e4, e5, e6]
  norm_num

/-- C5: for a validated catalog the compliance level is exactly one of
1, 2, 3; the level reaches 2 exactly when the recommended tier is fully
covered (for a nonempty tier, exactly when its fraction is 1.0, as the
last two conjuncts state); it is exactly 3 when additionally the
optional tier is fully covered; and invoking the computation with the
validated flag unset fails with the precondition (assertion) error. -/
theorem claim_C5_compliance_level (valid_tds : Bool) (root_metadata_keys : Finset String)
    (req : MetadataRequirementInfo) :
    (valid_tds = false →
      compute_compliance_level valid_tds root_metadata_keys req =
        Except.error PyError.assertionError) ∧
    (valid_tds = true → ∃ L,
      compute_compliance_level valid_tds root_metadata_keys req = Except.ok L ∧
      (L = 1 ∨ L = 2 ∨ L = 3) ∧
      (2 ≤ L ↔ (root_metadata_keys ∩ req.recommended_metadata_set).card =
        req.recommended_metadata_set.card) ∧
      (L = 3 ↔ ((root_metadata_keys ∩ req.recommended_metadata_set).card =
          req.recommended_metadata_set.card ∧
        (root_metadata_keys ∩ req.optional_metadata_set).card =
          req.optional_metadata_set.card)) ∧
      (req.recommended_metadata_set.card ≠ 0 →
        (((root_metadata_keys ∩ req.recommended_metadata_set).card : ℚ) /
            (req.recommended_metadata_set.card : ℚ) = 1 ↔
          (root_metadata_keys ∩ req.recommended_metadata_set).card =
            req.recommended_metadata_set.card)) ∧
      (req.optional_metadata_set.card ≠ 0 →
        (((root_metadata_keys ∩ req.optional_metadata_set).card : ℚ) /
            (req.optional_metadata_set.card : ℚ) = 1 ↔
          (root_metadata_keys ∩ req.optional_metadata_set).card =
            req.optional_metadata_set.card))) := by
  constructor
  · intro hv
    subst hv
    rfl
  · intro hv
    subst hv
    have hfrac : ∀ t : Finset String, t.card ≠ 0 →
        (((root_metadata_keys ∩ t).card : ℚ) / (t.card : ℚ) = 1 ↔
          (root_metadata_keys ∩ t).card = t.card) := by
      intro t ht
      rw [div_eq_one_iff_eq (by exact_mod_cast ht)]
      exact_mod_cast Iff.rfl
    by_cases hrec : (root_metadata_keys ∩ req.recommended_metadata_set).card =
        req.recommended_metadata_set.card
    · by_cases hopt : (root_metadata_keys ∩ req.optional_metadata_set).card =
          req.optional_metadata_set.card
      · refine ⟨3, ?_, by omega, by omega, ?_, hfrac _, hfrac _⟩
        · rw [compute_compliance_level, if_neg (by simp), if_pos hrec]
          simp [hopt]
        · exact ⟨fun _ => ⟨hrec, hopt⟩, fun _ => rfl⟩
      · refine ⟨2, ?_, by omega, by omega, ?_, hfrac _, hfrac _⟩
        · rw [compute_compliance_level, if_neg (by simp), if_pos hrec]
          simp [hopt]
        · exact ⟨by omega, fun hand => absurd hand.2 hopt⟩
    · refine ⟨1, ?_, by omega, ?_, ?_, hfrac _, hfrac _⟩
      · rw [compute_compliance_level, if_neg (by simp), if_neg hrec]
        simp
      · exact ⟨by omega, fun hc => absurd hc hrec⟩
      · exact ⟨by omega, fun hand => absurd hand.1 hrec⟩

/-- Witness for C5, the worked example of the spec: recommended = {c}
fully covered, optional = {d} not covered, so the level is exactly 2;
and the unvalidated call fails with the assertion error. -/
theorem claim_C5_compliance_level_witness :
    compute_compliance_level true {"a", "c"}
        { required_metadata_set := {"a", "b"}, recommended_metadata_set := {"c"},
          optional_metadata_set := {"d"} } = Except.ok 2 ∧
    compute_compliance_level false {"a", "c"}
        { required_metadata_set := {"a", "b"}, recommended_metadata_set := {"c"},
          optional_metadata_set := {"d"} } = Except.error PyError.assertionError := by
  obtain ⟨L, hok, hrange, hiff2, hiff3, -, -⟩ :=
    (claim_C5_compliance_level true {"a", "c"}
      { required_metadata_set := {"a", "b"}, recommended_metadata_set := {"c"},
        optional_metadata_set := {"d"} }).2 rfl
  have hrec : ((({"a", "c"} : Finset String)) ∩ ({"c"} : Finset String)).card =
      ({"c"} : Finset String).card := by decide
  have hopt : ¬(((({"a", "c"} : Finset String)) ∩ ({"d"} : Finset String)).card =
      ({"d"} : Finset String).card) := by decide
  have hL2 : 2 ≤ L := hiff2.2 hrec
  have hL3 : L ≠ 3 := fun hc => hopt (hiff3.1 hc).2
  have : L = 2 := by omega
  subst this
  refine ⟨hok, (claim_C5_compliance_level false _ _).1 rfl⟩

theorem parseMetadataRel_ok (rel t ft fn : String)
    (hstart : pyStartsWith rel ("metadata") = true)
    (hsplit : pySplit rel '/' = [t, ft, fn])
    (hft : ft = ("features") ∨ ft = ("references")) :
    parseMetadataRel rel = Except.ok (some (ft, fn)) := by
  unfold parseMetadataRel
  rw [if_pos hstart, hsplit]
  show (if ft = ("features") ∨ ft = ("references") then Except.ok (some (ft, fn))
    else Except.error PyError.invalidFieldTypeError) = Except.ok (some (ft, fn))
  rw [if_pos hft]

theorem parseMetadataRel_formatError (rel : String)
    (hstart : pyStartsWith rel ("metadata") = true)
    (hlen : (pySplit rel '/').length ≠ 3) :
    parseMetadataRel rel = Except.error PyError.relationFormatError := by
  unfold parseMetadataRel
  rw [if_pos hstart]
  rcases hsplit : pySplit rel '/' with _ | ⟨a, _ | ⟨b, _ | ⟨c, _ | ⟨d, rest⟩⟩⟩⟩
  · rfl
  · rfl
  · rfl
  · rw [hsplit] at hlen; simp at hlen
  · rfl

/-- C6: a link whose relation starts with `metadata` and splits into the
3 tokens `metadata/<features|references>/<name>` is parsed into its
(type, name) pair, while a relation starting with `metadata` whose
split does not have exactly 3 tokens raises the relation-format
(ValueError) failure; the two worked examples of the claim follow, and
the error is fatal for a whole load that encounters such a link. -/
theorem claim_C6_relation_grammar (rel : String)
    (hstart : pyStartsWith rel ("metadata") = true) :
    (∀ t ft fn, pySplit rel '/' = [t, ft, fn] →
      (ft = ("features") ∨ ft = ("references")) →
      parseMetadataRel rel = Except.ok (some (ft, fn))) ∧
    ((pySplit rel '/').length ≠ 3 →
      parseMetadataRel rel = Except.error PyError.relationFormatError) ∧
    parseMetadataRel ("metadata/features/input1") =
      Except.ok (some (("features"), ("input1"))) ∧
    parseMetadataRel ("metadata/input1") = Except.error PyError.relationFormatError ∧
    parse_g_profile_info
        [(("metadata/features/input1"), ("f1.json")), (("metadata/input1"), ("x.json"))] =
      Except.error PyError.relationFormatError :=
  ⟨fun t ft fn hsplit hft => parseMetadataRel_ok rel t ft fn hstart hsplit hft,
    parseMetadataRel_formatError rel hstart, by rfl, by rfl, by rfl⟩

/-- Witness for C6: instantiated at the well-formed relation
`metadata/features/input1`, whose split is
`[metadata, features, input1]`. -/
theorem claim_C6_relation_grammar_witness :
    parseMetadataRel ("metadata/features/input1") =
      Except.ok (some (("features"), ("input1"))) :=
  (claim_C6_relation_grammar ("metadata/features/input1") (by decide)).1
    ("metadata") ("features") ("input1") (by decide) (Or.inl rfl)

/-- C7: an AOI-scoped field profile reached through a well-formed
metadata link whose `assets` dict does not have exactly one entry makes
the load raise the asset-cardinality failure instead of admitting the
profile. -/
theorem claim_C7_asset_cardinality (rel : String) (assets : List (String × String))
    (t ft fn : String)
    (hstart : pyStartsWith rel ("metadata") = true)
    (hsplit : pySplit rel '/' = [t, ft, fn])
    (hft : ft = ("features") ∨ ft = ("references"))
    (hassets : assets.length ≠ 1) :
    parseAoiProfileLink rel assets = Except.error PyError.assetCardinalityError := by
  unfold parseAoiProfileLink
  rw [parseMetadataRel_ok rel t ft fn hstart hsplit hft]
  rcases assets with _ | ⟨a, _ | ⟨b, rest⟩⟩
  · rfl
  · simp at hassets
  · rfl

/-- Witness for C7: the profile behind `metadata/features/input1` with
zero asset entries, and with two asset entries. -/
theorem claim_C7_asset_cardinality_witness :
    parseAoiProfileLink ("metadata/features/input1") [] =
      Except.error PyError.assetCardinalityError ∧
    parseAoiProfileLink ("metadata/features/input1")
        [(("data"), ("a.tif")), (("data2"), ("b.tif"))] =
      Except.error PyError.assetCardinalityError :=
  ⟨claim_C7_asset_cardinality ("metadata/features/input1") [] ("metadata") ("features")
      ("input1") (by decide) (by decide) (Or.inl rfl) (by decide),
    claim_C7_asset_cardinality ("metadata/features/input1")
      [(("data"), ("a.tif")), (("data2"), ("b.tif"))] ("metadata") ("features")
      ("input1") (by decide) (by decide) (Or.inl rfl) (by decide)⟩

theorem dictSet_lookup (m : List (String × String)) (k v : String) :
    (dictSet m k v).lookup k = some v := by
  induction m with
  | nil => simp [dictSet, List.lookup]
  | cons p m ih =>
    obtain ⟨pk, pv⟩ := p
    rw [dictSet]
    by_cases h : pk = k
    · rw [if_pos (by simpa using h)]
      simp [List.lookup]
    · rw [if_neg (by simpa using h)]
      simp only [List.lookup]
      have hbeq : (k == pk) = false := by simp [Ne.symm h]
      rw [hbeq]
      exact ih

/-- Counterexample to C8: duplicate links of the same type and name load
without any failure and without any collision signal — a plain silent
success whose final map holds only the later profile — in the
root-document scope (`features` type) and in the AOI scope
(`references` type) alike. -/
theorem claim_C8_counterexample :
    parse_g_profile_info
        [(("metadata/features/input1"), ("p1.json")),
          (("metadata/features/input1"), ("p2.json"))] =
      Except.ok { features := [(("input1"), ("p2.json"))], references := [],
                  collisionSignals := [] } ∧
    parse_aoi_profile_info
        [(("metadata/references/label"), ("q1.json"), [(("data"), ("a.tif"))]),
          (("metadata/references/label"), ("q2.json"), [(("data"), ("b.tif"))])] =
      Except.ok { features := [], references := [(("label"), ("q2.json"))],
                  collisionSignals := [] } := by
  exact ⟨rfl, rfl⟩

theorem gProfileStep_store (st : AllFieldMetadata) (rel href ft fn : String)
    (h : parseMetadataRel rel = Except.ok (some (ft, fn))) :
    gProfileStep st (rel, href) =
      Except.ok (if ft = ("features")
        then { st with features := dictSet st.features fn href }
        else { st with references := dictSet st.references fn href }) := by
  unfold gProfileStep
  rw [h]
  show (if ft = ("features")
      then Except.ok { st with features := dictSet st.features fn href }
      else Except.ok { st with references := dictSet st.references fn href }) = _
  by_cases hf : ft = ("features")
  · rw [if_pos hf, if_pos hf]
  · rw [if_neg hf, if_neg hf]

theorem aoiProfileStep_store (st : AllFieldMetadata) (rel href ft fn : String)
    (a : String × String)
    (h : parseMetadataRel rel = Except.ok (some (ft, fn))) :
    aoiProfileStep st (rel, href, [a]) =
      Except.ok (if ft = ("features")
        then { st with features := dictSet st.features fn href }
        else { st with references := dictSet st.references fn href }) := by
  unfold aoiProfileStep parseAoiProfileLink
  rw [h]
  show (if ft = ("features")
      then Except.ok { st with features := dictSet st.features fn href }
      else Except.ok { st with references := dictSet st.references fn href }) = _
  by_cases hf : ft = ("features")
  · rw [if_pos hf, if_pos hf]
  · rw [if_neg hf, if_neg hf]

/-- C8 (amended): in either loader scope — the root document or one AOI
collection — and for either field type (`features` or `references`),
two metadata links carrying the same field name make the later entry
overwrite the earlier one in that type's field-metadata dict, and the
load proceeds silently: no collision signal of any kind is issued to
the caller (the signal list is left exactly as it was). -/
theorem claim_C8_duplicate_overwrites (st : AllFieldMetadata)
    (ft fn rel1 rel2 href1 href2 : String) (a1 a2 : String × String)
    (hft : ft = ("features") ∨ ft = ("references"))
    (h1 : parseMetadataRel rel1 = Except.ok (some (ft, fn)))
    (h2 : parseMetadataRel rel2 = Except.ok (some (ft, fn))) :
    (∃ st' : AllFieldMetadata,
      [(rel1, href1), (rel2, href2)].foldlM gProfileStep st = Except.ok st' ∧
      (fieldDict st' ft).lookup fn = some href2 ∧
      st'.collisionSignals = st.collisionSignals) ∧
    (∃ st' : AllFieldMetadata,
      [(rel1, href1, [a1]), (rel2, href2, [a2])].foldlM aoiProfileStep st =
        Except.ok st' ∧
      (fieldDict st' ft).lookup fn = some href2 ∧
      st'.collisionSignals = st.collisionSignals) := by
  rcases hft with hf | hf
  · subst hf
    constructor
    · refine ⟨{ st with
          features := dictSet (dictSet st.features fn href1) fn href2 }, ?_, ?_, rfl⟩
      · rw [List.foldlM_cons, gProfileStep_store st rel1 href1 ("features") fn h1,
          if_pos rfl]
        show [(rel2, href2)].foldlM gProfileStep _ = _
        rw [List.foldlM_cons, gProfileStep_store _ rel2 href2 ("features") fn h2,
          if_pos rfl]
        rfl
      · rw [fieldDict, if_pos rfl]
        exact dictSet_lookup _ fn href2
    · refine ⟨{ st with
          features := dictSet (dictSet st.features fn href1) fn href2 }, ?_, ?_, rfl⟩
      · rw [List.foldlM_cons, aoiProfileStep_store st rel1 href1 ("features") fn a1 h1,
          if_pos rfl]
        show [(rel2, href2, [a2])].foldlM aoiProfileStep _ = _
        rw [List.foldlM_cons, aoiProfileStep_store _ rel2 href2 ("features") fn a2 h2,
          if_pos rfl]
        rfl
      · rw [fieldDict, if_pos rfl]
        exact dictSet_lookup _ fn href2
  · subst hf
    have hne : ¬(("references" : String) = ("features")) := by decide
    constructor
    · refine ⟨{ st with
          references := dictSet (dictSet st.references fn href1) fn href2 }, ?_, ?_, rfl⟩
      · rw [List.foldlM_cons, gProfileStep_store st rel1 href1 ("references") fn h1,
          if_neg hne]
        show [(rel2, href2)].foldlM gProfileStep _ = _
        rw [List.foldlM_cons, gProfileStep_store _ rel2 href2 ("references") fn h2,
          if_neg hne]
        rfl
      · rw [fieldDict, if_neg hne]
        exact dictSet_lookup _ fn href2
    · refine ⟨{ st with
          references := dictSet (dictSet st.references fn href1) fn href2 }, ?_, ?_, rfl⟩
      · rw [List.foldlM_cons, aoiProfileStep_store st rel1 href1 ("references") fn a1 h1,
          if_neg hne]
        show [(rel2, href2, [a2])].foldlM aoiProfileStep _ = _
        rw [List.foldlM_cons, aoiProfileStep_store _ rel2 href2 ("references") fn a2 h2,
          if_neg hne]
        rfl
      · rw [fieldDict, if_neg hne]
        exact dictSet_lookup _ fn href2

/-- Witness for C8 (amended): concrete references-typed duplicate links,
exercised in both the root-document scope and the AOI scope, starting
from the empty store. -/
theorem claim_C8_duplicate_overwrites_witness :
    (∃ st' : AllFieldMetadata,
      [((("metadata/references/label") : String), (("q1.json") : String)),
          (("metadata/references/label"), ("q2.json"))].foldlM gProfileStep
        { features := [], references := [], collisionSignals := [] } =
        Except.ok st' ∧
      (fieldDict st' ("references")).lookup ("label") = some ("q2.json") ∧
      st'.collisionSignals =
        ({ features := [], references := [], collisionSignals := [] } :
          AllFieldMetadata).collisionSignals) ∧
    (∃ st' : AllFieldMetadata,
      [((("metadata/references/label") : String), (("q1.json") : String),
            [((("data") : String), (("a.tif") : String))]),
          (("metadata/references/label"), ("q2.json"),
            [(("data"), ("b.tif"))])].foldlM aoiProfileStep
        { features := [], references := [], collisionSignals := [] } =
        Except.ok st' ∧
      (fieldDict st' ("references")).lookup ("label") = some ("q2.json") ∧
      st'.collisionSignals =
        ({ features := [], references := [], collisionSignals := [] } :
          AllFieldMetadata).collisionSignals) :=
  claim_C8_duplicate_overwrites
    { features := [], references := [], collisionSignals := [] }
    ("references") ("label") ("metadata/references/label")
    ("metadata/references/label") ("q1.json") ("q2.json")
    ((("data"), ("a.tif"))) ((("data"), ("b.tif")))
    (Or.inr rfl) (by rfl) (by rfl)

/-- C9: writing the catalog tree requires the destination root directory
to not exist yet: with the target directory present in the filesystem,
`write_TDS_STAC_Catalog` fails (FileExistsError from
`mkdir(parents=True)` after a passed validity assertion, the assertion
error otherwise) and returns no written tree. -/
theorem claim_C9_write_requires_fresh_dir (fs : FileSystem) (valid_tds : Bool)
    (root_folder : String) (outputs : List (String × String))
    (h : fs.dirs.contains root_folder = true) :
    (valid_tds = true →
      write_TDS_STAC_Catalog fs valid_tds root_folder outputs =
        Except.error PyError.fileExistsError) ∧
    (valid_tds = false →
      write_TDS_STAC_Catalog fs valid_tds root_folder outputs =
        Except.error PyError.assertionError) := by
  constructor
  · intro hv
    subst hv
    rw [write_TDS_STAC_Catalog, if_neg (by simp), if_pos h]
  · intro hv
    subst hv
    rfl

/-- Witness for C9: a filesystem already holding the directory `out`
rejects a write rooted at `out`. -/
theorem claim_C9_write_requires_fresh_dir_witness :
    write_TDS_STAC_Catalog { dirs := [("out")], files := [] } true ("out")
        [(("out/catalog.json"), ("json-content"))] =
      Except.error PyError.fileExistsError :=
  (claim_C9_write_requires_fresh_dir { dirs := [("out")], files := [] } true ("out")
    [(("out/catalog.json"), ("json-content"))] (by decide)).1 rfl
